import Mathlib

/-!
Shallow embedding of the assignment/load-balancing engine of the
`factors_of_colormap_new` repository.

Two variants exist in the source:
  * the discrete-group variant `deploy/server.py` (`assign_group`,
    `load_assignments`, `save_data`), balancing 3 groups `{0, 1, 2}`;
  * the repetition variant `deploy copy/server.py` (`assign_repetition`),
    balancing 27 repetition slots `{1, ..., 27}` with a zero-first rule.

Python dicts are modelled as association lists in insertion order (dict
assignment of a fresh key is an append; dict comprehension is a filter),
epoch times as `Int`, and exceptions raised inside the request handlers as
explicit error values (Flask turns them into HTTP 500 responses; the
process survives).  The `random.choice` call is modelled by an injected
natural number `rng` indexing the candidate list, matching
`seq[randbelow(len(seq))]` (`import random` at line 163 is function-local
and does execute).

A decisive fact about `deploy/server.py`: the module never binds the name
`json` — the only `import json` (line 47) sits inside the unreachable
completion block of `save_data` and would be function-local anyway.
Hence `json.load` in `load_assignments` raises `NameError` for every
existing file, the bare `except:` swallows it, and the default state is
returned no matter what the file contains; and `save_assignments` opens
the file for writing (truncating it) and then raises `NameError` from
`json.dump`, which no caller catches, so every fresh assignment request
answers HTTP 500 and no assignment is ever persisted.  The embedding
models this: `load_assignments` returns the default on every backing,
and the fresh path of `assign_group` ends in a `nameError` failure with
nothing saved.
-/

set_option autoImplicit false

namespace Server

/-- Association-list lookup, the model of `pid in d` / `d[pid]` for a
Python dict in insertion order. -/
def lookupA {β : Type} (k : String) : List (String × β) → Option β
  | [] => none
  | (k', v) :: rest => if k' = k then some v else lookupA k rest

/-- Python `int(s)` restricted to the numeral strings that occur as JSON
keys in this program: an optional minus sign followed by decimal digits.
Returns `none` where Python would raise `ValueError`. -/
def digitsToNat? : List Char → Option Nat
  | [] => none
  | [c] => if c.isDigit then some (c.toNat - '0'.toNat) else none
  | c :: rest =>
    if c.isDigit then
      match digitsToNat? rest with
      | some n => some ((c.toNat - '0'.toNat) * 10 ^ rest.length + n)
      | none => none
    else none

/-- Python `int(s)` on a string key (sign handling included). -/
def pyInt? (s : String) : Option Int :=
  match s.toList with
  | '-' :: rest => (digitsToNat? rest).map (fun n => -(n : Int))
  | l => (digitsToNat? l).map (fun n => (n : Int))

/-- A Python exception escaping the handler body (Flask answers 500).
`nameError` is the `NameError: name 'json' is not defined` raised by
`save_assignments` in `deploy/server.py`. -/
inductive PyErr where
  | keyError
  | valueError
  | nameError
deriving DecidableEq, Repr

/-! ## Discrete-group variant (`deploy/server.py`) -/

/-- `ASSIGNMENT_TIMEOUT_SECONDS = 30 * 60`. -/
def ASSIGNMENT_TIMEOUT_SECONDS : Int := 30 * 60

/-- One value of the `active` dict: `{'group': g, 'timestamp': ts}`. -/
structure GroupRec where
  group : Nat
  timestamp : Int
deriving DecidableEq, Repr

/-- The persisted state `{'active': {...}, 'completed': {...}}` of the group
variant.  The model fixes the two top-level keys as present; malformed
content (unknown condition keys, wrong counts) is still representable. -/
structure GState where
  active : List (String × GroupRec)
  completed : List (String × Nat)
deriving DecidableEq, Repr

/-- The default state synthesized by `load_assignments`:
`{'active': {}, 'completed': {'0': 0, '1': 0, '2': 0}}`. -/
def defaultGState : GState :=
  { active := [], completed := [("0", 0), ("1", 0), ("2", 0)] }

/-- The condition of the backing file `data/assignments.json`:
missing, present but not valid JSON, or present with parseable content. -/
inductive Backing where
  | absent
  | unparsable
  | parsed (st : GState)

/-- `load_assignments` of `deploy/server.py`: default when the file is
missing; and because the module-level name `json` is never bound (the only
`import json` is the dead function-local one at line 47), `json.load`
raises `NameError` for every existing file — parseable or not — which the
bare `except:` swallows, returning the default.  The content of a
parseable file is therefore never seen. -/
def load_assignments : Backing → GState
  | .absent => defaultGState
  | .unparsable => defaultGState
  | .parsed _ => defaultGState

/-- The stale-session prune of `assign_group`: keep the records with
`(now - info['timestamp']) < ASSIGNMENT_TIMEOUT_SECONDS`. -/
def sweepActive (now : Int) (active : List (String × GroupRec)) :
    List (String × GroupRec) :=
  active.filter (fun kv => now - kv.2.timestamp < ASSIGNMENT_TIMEOUT_SECONDS)

/-- The dict `counts = {0: 0, 1: 0, 2: 0}` of `assign_group`. -/
structure Counts where
  c0 : Nat
  c1 : Nat
  c2 : Nat
deriving DecidableEq, Repr

/-- Value at an integer key of the `counts` dict (callers establish the key
is one of `0, 1, 2`; out-of-range reads are routed through `incBy`). -/
def Counts.get (c : Counts) : Nat → Nat
  | 0 => c.c0
  | 1 => c.c1
  | _ => c.c2

/-- `counts[k] += n`; `none` models the `KeyError` Python raises when `k`
is not one of the dict's keys `0, 1, 2`. -/
def Counts.incBy (c : Counts) (k : Int) (n : Nat) : Option Counts :=
  if k = 0 then some { c with c0 := c.c0 + n }
  else if k = 1 then some { c with c1 := c.c1 + n }
  else if k = 2 then some { c with c2 := c.c2 + n }
  else none

/-- The loop `for g, count in completed.items(): counts[int(g)] += count`:
`ValueError` if a key fails `int()`, `KeyError` if it is outside `0..2`. -/
def addCompleted (c : Counts) : List (String × Nat) → Except PyErr Counts
  | [] => .ok c
  | (g, n) :: rest =>
    match pyInt? g with
    | none => .error .valueError
    | some k =>
      match c.incBy k n with
      | none => .error .keyError
      | some c' => addCompleted c' rest

/-- The loop `for info in fresh_active.values(): counts[info['group']] += 1`;
`none` models the `KeyError` on a group outside `0..2`. -/
def addActive (c : Counts) : List (String × GroupRec) → Option Counts
  | [] => some c
  | kv :: rest =>
    match c.incBy (kv.2.group : Int) 1 with
    | none => none
    | some c' => addActive c' rest

/-- `min_load = min(counts.values())`. -/
def Counts.minLoad (c : Counts) : Nat := min c.c0 (min c.c1 c.c2)

/-- `candidates = [g for g, c in counts.items() if c == min_load]` — the
dict iterates in insertion order `0, 1, 2`. -/
def Counts.candidates (c : Counts) : List Nat :=
  [0, 1, 2].filter (fun g => c.get g == c.minLoad)

/-- `random.choice(seq)` with the randomness injected as an index. -/
def choice (rng : Nat) (xs : List Nat) : Nat := xs.getD (rng % xs.length) 0

/-- Response of the `/api/assign` route. -/
inductive GResp where
  | ok (group : Nat) (isNew : Bool)
  | noId
  | failure (e : PyErr)
deriving DecidableEq, Repr

/-- The load computation and selection of `assign_group` (lines 145-164):
per-group loads from the completed dict and the swept active dict, the
minimum, the tied candidates in insertion order, and the `random.choice`
tie-break.  This value is computed in memory by the real code; the
exceptions are the `ValueError`/`KeyError` of `counts[int(g)] += count`
and `counts[info['group']] += 1`. -/
def chosenGroup (completed : List (String × Nat))
    (fresh : List (String × GroupRec)) (rng : Nat) : Except PyErr Nat :=
  match addCompleted ⟨0, 0, 0⟩ completed with
  | .error e => .error e
  | .ok cComp =>
    match addActive cComp fresh with
    | none => .error .keyError
    | some counts => .ok (choice rng counts.candidates)

/-- The tail of `assign_group` once the participant is known to be new:
the selection runs, the record is inserted into the in-memory dict, and
then `save_assignments(state)` opens `assignments.json` for writing
(truncating it) and raises `NameError` because `json` is unbound.  The
exception is uncaught, so the route answers HTTP 500: the chosen group is
never returned and nothing is persisted. -/
def assignFresh (_pid : String) (completed : List (String × Nat))
    (fresh : List (String × GroupRec)) (_now : Int) (rng : Nat) :
    GResp × Option GState :=
  match chosenGroup completed fresh rng with
  | .error e => (.failure e, none)
  | .ok _g => (.failure .nameError, none)

/-- `assign_group` of `deploy/server.py`.  The pair's second component is
the state written by `save_assignments` — which is `none` on every path:
the 400 path and the replay path never call save, and the fresh path's
save raises `NameError` before writing any JSON (leaving the backing file
truncated).  Note the route computes `lock_file` but acquires no lock. -/
def assign_group (pid? : Option String) (st : GState) (now : Int)
    (rng : Nat) : GResp × Option GState :=
  match pid? with
  | none => (.noId, none)
  | some pid =>
    if pid = "" then (.noId, none)
    else
      match lookupA pid (sweepActive now st.active) with
      | some rec => (.ok rec.group false, none)
      | none => assignFresh pid st.completed (sweepActive now st.active) now rng

/-! ## `save_data` of `deploy/server.py`

The route's `try` block writes the CSV file and returns; its `except`
block returns an error.  The assignment-completion block at lines 45-77
stands after both returns, so it never executes: the route leaves the
assignment state untouched.  We embed both the route's actual effect and,
separately, the unreachable block's effect. -/

/-- Response of the `/api/save_data` route. -/
inductive SResp where
  | success (filename : String)
  | noCsv
deriving DecidableEq, Repr

/-- `save_data` of `deploy/server.py` as it executes: with a non-empty
CSV it writes `"{participant_id}_{timestamp}.csv"` into the data
directory and returns; the assignment state `st` is returned unchanged
because the completion block sits after the `return` statements. -/
def save_data (pid? : Option String) (csv : String) (tstamp : Int)
    (st : GState) (files : List String) :
    SResp × GState × List String :=
  let pid := pid?.getD "unknown"
  if csv = "" then (.noCsv, st, files)
  else
    let filename := pid ++ "_" ++ toString tstamp ++ ".csv"
    (.success filename, st, files ++ [filename])

/-- `state['completed'][group] += 1`, initializing a missing key to 0
first, as in lines 67-70 of `deploy/server.py`. -/
def incCompleted (g : String) : List (String × Nat) → List (String × Nat)
  | [] => [(g, 1)]
  | (k, n) :: rest =>
    if k = g then (k, n + 1) :: rest else (k, n) :: incCompleted g rest

/-- `del state['active'][pid]`. -/
def eraseA {β : Type} (k : String) (l : List (String × β)) :
    List (String × β) :=
  l.filter (fun kv => kv.1 ≠ k)

/-- The unreachable completion block of `save_data` (lines 57-76 of
`deploy/server.py`): what the state update would be if the block ran.
Removes the participant from `active` and increments
`completed[str(group)]`. -/
def save_data_completion_block (pid : String) (st : GState) : GState :=
  match lookupA pid st.active with
  | none => st
  | some rec =>
    { active := eraseA pid st.active,
      completed := incCompleted (toString rec.group) st.completed }

/-! ## Repetition variant (`deploy copy/server.py`) -/

/-- `TOTAL_REPS = 27`. -/
def TOTAL_REPS : Nat := 27

/-- `SESSION_TIMEOUT = 2 * 60 * 60`. -/
def SESSION_TIMEOUT : Int := 2 * 60 * 60

/-- One value of the repetition `assignments` dict:
`{'repetition': r, 'timestamp': ts}`. -/
structure RepRec where
  repetition : Nat
  timestamp : Int
deriving DecidableEq, Repr

/-- Python `s.startswith(pre)`, on the character lists of the strings. -/
def pyStartsWith (s pre : String) : Bool := pre.toList.isPrefixOf s.toList

/-- Python `s.endswith(suf)`, on the character lists of the strings. -/
def pyEndsWith (s suf : String) : Bool := suf.toList.isSuffixOf s.toList

/-- The check `fname.startswith(f"{assigned_pid}_") and fname.endswith('.csv')`
over the files of the data directory. -/
def csvExists (pid : String) (files : List String) : Bool :=
  files.any (fun f => pyStartsWith f (pid ++ "_") && pyEndsWith f ".csv")

/-- Repetition status accumulator: per-repetition `completed` and `active`
tallies (the dict `rep_status`, with its keys `1..TOTAL_REPS` implicit;
out-of-range accesses raise `KeyError`, modelled below). -/
def repStatusStep (files : List String) (now : Int)
    (acc : Except PyErr ((Nat → Nat) × (Nat → Nat))) (kv : String × RepRec) :
    Except PyErr ((Nat → Nat) × (Nat → Nat)) :=
  match acc with
  | .error e => .error e
  | .ok (comp, act) =>
    let rep := kv.2.repetition
    if csvExists kv.1 files then
      if 1 ≤ rep ∧ rep ≤ TOTAL_REPS then
        .ok (fun r => if r = rep then comp r + 1 else comp r, act)
      else .error .keyError
    else if now - kv.2.timestamp < SESSION_TIMEOUT then
      if 1 ≤ rep ∧ rep ≤ TOTAL_REPS then
        .ok (comp, fun r => if r = rep then act r + 1 else act r)
      else .error .keyError
    else
      .ok (comp, act)

/-- The scan `for assigned_pid, info in assignments.items(): ...` of
`assign_repetition`, producing the per-repetition completed and active
counts; abandoned records (no CSV and age `>= SESSION_TIMEOUT`) are
skipped without touching any count. -/
def repStatus (assignments : List (String × RepRec)) (files : List String)
    (now : Int) : Except PyErr ((Nat → Nat) × (Nat → Nat)) :=
  assignments.foldl (repStatusStep files now) (.ok (fun _ => 0, fun _ => 0))

/-- The completed tally of `rep_status[r]` (0 on the error path); a
convenience projection of `repStatus` for stating properties. -/
def repCompletedAt (assignments : List (String × RepRec))
    (files : List String) (now : Int) (r : Nat) : Nat :=
  match repStatus assignments files now with
  | .ok ca => ca.1 r
  | .error _ => 0

/-- The active tally of `rep_status[r]` (0 on the error path). -/
def repActiveAt (assignments : List (String × RepRec))
    (files : List String) (now : Int) (r : Nat) : Nat :=
  match repStatus assignments files now with
  | .ok ca => ca.2 r
  | .error _ => 0

/-- `range(1, TOTAL_REPS + 1)`. -/
def repRange : List Nat := (List.range TOTAL_REPS).map (· + 1)

/-- Head of Python's stable `sorted(range(1, TOTAL_REPS + 1), key=load)`:
the first element of the list attaining the minimal key. -/
def argminFirst (key : Nat → Nat) : List Nat → Nat
  | [] => 1
  | x :: xs => xs.foldl (fun best r => if key r < key best then r else best) x

/-- Response of the `/api/assign_repetition` route. -/
inductive RResp where
  | rep (r : Nat)
  | noId
  | err500
deriving DecidableEq, Repr

/-- `assign_repetition` of `deploy copy/server.py`.  The second component
is the assignments dict written by `save_assignments` (`none` when nothing
is saved: the 400 path, the replay path, and the exception path).  Note
the replay check `pid in assignments` runs before any staleness handling
and records are never deleted from the dict. -/
def assign_repetition (pid? : Option String)
    (assignments : List (String × RepRec)) (files : List String)
    (now : Int) : RResp × Option (List (String × RepRec)) :=
  match pid? with
  | none => (.noId, none)
  | some pid =>
    if pid = "" then (.noId, none)
    else
      match lookupA pid assignments with
      | some rec => (.rep rec.repetition, none)
      | none =>
        match repStatus assignments files now with
        | .error _ => (.err500, none)
        | .ok (comp, act) =>
          let zeros := repRange.filter (fun r => comp r == 0 && act r == 0)
          let target :=
            match zeros with
            | c :: _ => c
            | [] => argminFirst (fun r => comp r + act r) repRange
          (.rep target,
           some (assignments ++ [(pid, { repetition := target, timestamp := now })]))

/-! ## Execution models

`runSeq` chains requests sequentially: each request loads the state the
previous one saved — the behaviour when every request's load-mutate-save
runs as one critical section.

The `CConfig`/`cstep` machine models the unlocked concurrency the code
actually has: `assign_group` performs `load_assignments()` and, later,
`save_assignments(state)` with no lock held, so another request may load
or save in between.  A request is split into its two store interactions:
a `load` step snapshots the shared state, and a `save` step runs the pure
handler body on the snapshot and persists its result. -/

/-- Sequential execution of `assign_group` requests `(pid, rng)`, each
seeing the previously saved state (no state written means none saved). -/
def runSeq (now : Int) (st : GState) : List (String × Nat) → GState
  | [] => st
  | (p, r) :: rest =>
    runSeq now ((assign_group (some p) st now r).2.getD st) rest

/-- Sequential execution of `assign_repetition` requests: returns the list
of repetitions handed out and the final saved assignments dict. -/
def runSeqRep (now : Int) (files : List String)
    (st : List (String × RepRec)) :
    List String → List Nat × List (String × RepRec)
  | [] => ([], st)
  | p :: ps =>
    let out := assign_repetition (some p) st files now
    let st' := out.2.getD st
    let rest := runSeqRep now files st' ps
    ((match out.1 with | .rep r => r | _ => 0) :: rest.1, rest.2)

/-- A pending concurrent request: participant id and randomness. -/
structure CReq where
  pid : String
  rng : Nat
deriving DecidableEq, Repr

/-- Shared store plus per-request snapshots and responses. -/
structure CConfig where
  disk : GState
  snaps : List (Option GState)
  outs : List (Option GResp)
deriving DecidableEq, Repr

/-- An atomic store interaction of request `i`. -/
inductive CAct where
  | load (i : Nat)
  | save (i : Nat)
deriving DecidableEq, Repr

/-- One interleaving step: `load i` snapshots the shared state for
request `i`; `save i` runs `assign_group` on request `i`'s snapshot and
overwrites the shared state with whatever it saves. -/
def cstep (reqs : List CReq) (now : Int) (cfg : CConfig) : CAct → CConfig
  | .load i =>
    match cfg.snaps.getD i none with
    | some _ => cfg
    | none => { cfg with snaps := cfg.snaps.set i (some cfg.disk) }
  | .save i =>
    match cfg.snaps.getD i none with
    | none => cfg
    | some st =>
      let req := reqs.getD i ⟨"", 0⟩
      let out := assign_group (some req.pid) st now req.rng
      { disk := out.2.getD cfg.disk,
        snaps := cfg.snaps,
        outs := cfg.outs.set i (some out.1) }

/-- Run a schedule of store interactions. -/
def runSched (reqs : List CReq) (now : Int) (cfg : CConfig)
    (acts : List CAct) : CConfig :=
  acts.foldl (cstep reqs now) cfg

/-- Initial configuration for `n` concurrent requests over a store. -/
def initCConfig (n : Nat) (disk : GState) : CConfig :=
  { disk := disk, snaps := List.replicate n none, outs := List.replicate n none }

/-! ## Concrete inputs used by the statements -/

/-- Twenty-seven distinct participant ids for the repetition scenario. -/
def seqPids : List String :=
  ["a1", "a2", "a3", "a4", "a5", "a6", "a7", "a8", "a9",
   "b1", "b2", "b3", "b4", "b5", "b6", "b7", "b8", "b9",
   "c1", "c2", "c3", "c4", "c5", "c6", "c7", "c8", "c9"]

/-- Four concurrent `assign` requests with distinct new participant ids. -/
def lostUpdateReqs : List CReq :=
  [⟨"a", 0⟩, ⟨"b", 0⟩, ⟨"c", 0⟩, ⟨"d", 0⟩]

/-- The interleaving in which all four requests load before any saves:
possible because `assign_group` holds no lock between its
`load_assignments()` and `save_assignments(state)` calls. -/
def lostUpdateSched : List CAct :=
  [.load 0, .load 1, .load 2, .load 3, .save 0, .save 1, .save 2, .save 3]

/-- Final configuration of the unlocked interleaving. -/
def lostUpdateFinal : CConfig :=
  runSched lostUpdateReqs 0 (initCConfig 4 defaultGState) lostUpdateSched

/-! ## Association-list and sweep lemmas -/

theorem lookupA_eq_none {β : Type} {k : String} {l : List (String × β)} :
    lookupA k l = none ↔ ∀ kv ∈ l, kv.1 ≠ k := by
  induction l with
  | nil => simp [lookupA]
  | cons kv rest ih =>
    by_cases h : kv.1 = k <;> simp [lookupA, h, ih]

theorem lookupA_append {β : Type} (k : String) (l₁ l₂ : List (String × β))
    (h : lookupA k l₁ = none) :
    lookupA k (l₁ ++ l₂) = lookupA k l₂ := by
  induction l₁ with
  | nil => simp
  | cons kv rest ih =>
    by_cases hk : kv.1 = k
    · simp [lookupA, hk] at h
    · simp [lookupA, hk] at h ⊢
      exact ih h

theorem lookupA_filter_none {β : Type} (k : String) (q : String × β → Bool)
    (l : List (String × β)) (h : lookupA k l = none) :
    lookupA k (l.filter q) = none := by
  rw [lookupA_eq_none] at h ⊢
  intro kv hkv
  exact h kv (List.mem_of_mem_filter hkv)

theorem lookupA_append_self {β : Type} (k : String) (v : β)
    (l : List (String × β)) (h : lookupA k l = none) :
    lookupA k (l ++ [(k, v)]) = some v := by
  rw [lookupA_append k l _ h]
  simp [lookupA]

theorem sweepActive_eq_self {now : Int} {active : List (String × GroupRec)}
    (h : ∀ kv ∈ active, now - kv.2.timestamp < ASSIGNMENT_TIMEOUT_SECONDS) :
    sweepActive now active = active := by
  unfold sweepActive
  rw [List.filter_eq_self]
  intro kv hkv
  simpa using h kv hkv

theorem mem_sweepActive_fresh {now : Int} {active : List (String × GroupRec)}
    {kv : String × GroupRec} (h : kv ∈ sweepActive now active) :
    now - kv.2.timestamp < ASSIGNMENT_TIMEOUT_SECONDS := by
  have := List.mem_filter.mp h
  simpa using this.2

/-! ## Load-computation lemmas -/

theorem pyInt_zero : pyInt? "0" = some 0 := rfl

theorem pyInt_one : pyInt? "1" = some 1 := rfl

theorem pyInt_two : pyInt? "2" = some 2 := rfl

theorem addCompleted_default (a b c : Nat) :
    addCompleted ⟨0, 0, 0⟩ [("0", a), ("1", b), ("2", c)] = .ok ⟨a, b, c⟩ := by
  simp [addCompleted, pyInt_zero, pyInt_one, pyInt_two, Counts.incBy]

/-! ## Candidate-selection lemmas -/

theorem minLoad_attained (c : Counts) : ∃ g, g < 3 ∧ c.get g = c.minLoad := by
  by_cases h0 : c.c0 ≤ c.c1 ∧ c.c0 ≤ c.c2
  · exact ⟨0, by omega, by show c.c0 = _; unfold Counts.minLoad; omega⟩
  · by_cases h1 : c.c1 ≤ c.c2
    · refine ⟨1, by omega, ?_⟩
      show c.c1 = _
      unfold Counts.minLoad
      omega
    · refine ⟨2, by omega, ?_⟩
      show c.c2 = _
      unfold Counts.minLoad
      omega

theorem mem_candidates_of (c : Counts) {g : Nat} (hg : g < 3)
    (h : c.get g = c.minLoad) : g ∈ c.candidates := by
  unfold Counts.candidates
  rw [List.mem_filter]
  constructor
  · have : g = 0 ∨ g = 1 ∨ g = 2 := by omega
    rcases this with h' | h' | h' <;> simp [h']
  · simpa using h

theorem candidates_ne_nil (c : Counts) : c.candidates ≠ [] := by
  obtain ⟨g, hg, h⟩ := minLoad_attained c
  exact List.ne_nil_of_mem (mem_candidates_of c hg h)

theorem of_mem_candidates {c : Counts} {g : Nat} (h : g ∈ c.candidates) :
    g < 3 ∧ c.get g = c.minLoad := by
  unfold Counts.candidates at h
  rw [List.mem_filter] at h
  obtain ⟨hmem, heq⟩ := h
  refine ⟨?_, by simpa using heq⟩
  have h3 : g = 0 ∨ g = 1 ∨ g = 2 := by simpa using hmem
  omega

theorem choice_mem (rng : Nat) {xs : List Nat} (h : xs ≠ []) :
    choice rng xs ∈ xs := by
  have hlen : 0 < xs.length := List.length_pos.mpr h
  have hlt : rng % xs.length < xs.length := Nat.mod_lt _ hlen
  unfold choice
  rw [List.getD_eq_getElem xs 0 hlt]
  exact List.getElem_mem hlt

/-! ## Unfolding lemmas for `assign_group` -/

theorem assign_group_replay {st : GState} {now : Int} {rng : Nat}
    {p : String} {rec : GroupRec} (hp : p ≠ "")
    (h : lookupA p (sweepActive now st.active) = some rec) :
    assign_group (some p) st now rng = (.ok rec.group false, none) := by
  simp [assign_group, hp, h]

theorem assign_group_fresh {st : GState} {now : Int} {rng : Nat}
    {p : String} (hp : p ≠ "")
    (h : lookupA p (sweepActive now st.active) = none) :
    assign_group (some p) st now rng =
      assignFresh p st.completed (sweepActive now st.active) now rng := by
  simp [assign_group, hp, h]

/-! ## Persistence lemmas for `assign_group` -/

theorem assign_group_never_saves (pid? : Option String) (st : GState)
    (now : Int) (rng : Nat) : (assign_group pid? st now rng).2 = none := by
  cases pid? with
  | none => rfl
  | some p =>
    by_cases hp : p = ""
    · simp [assign_group, hp]
    · rw [assign_group]
      rw [if_neg hp]
      cases hl : lookupA p (sweepActive now st.active) with
      | some rec => simp only [hl]
      | none =>
        simp only [hl, assignFresh]
        cases hc : chosenGroup st.completed (sweepActive now st.active) rng with
        | error e => simp only [hc]
        | ok g => simp only [hc]

theorem group_allocation_always_fails (b : Backing) (p : String) (now : Int)
    (rng : Nat) (hp : p ≠ "") :
    assign_group (some p) (load_assignments b) now rng =
      (.failure .nameError, none) := by
  have hld : load_assignments b = defaultGState := by cases b <;> rfl
  rw [hld]
  have h0 : lookupA p (sweepActive now defaultGState.active) = none := rfl
  rw [assign_group_fresh hp h0]
  rfl

theorem runSeq_id (now : Int) (reqs : List (String × Nat)) (st : GState) :
    runSeq now st reqs = st := by
  induction reqs generalizing st with
  | nil => rfl
  | cons pr rest ih =>
    obtain ⟨p, r⟩ := pr
    simp only [runSeq, assign_group_never_saves, Option.getD]
    exact ih st

theorem cstep_disk (reqs : List CReq) (now : Int) (cfg : CConfig)
    (a : CAct) : (cstep reqs now cfg a).disk = cfg.disk := by
  cases a with
  | load i =>
    cases hcase : cfg.snaps.getD i none with
    | none => simp only [cstep, hcase]
    | some st => simp only [cstep, hcase]
  | save i =>
    cases hcase : cfg.snaps.getD i none with
    | none => simp only [cstep, hcase]
    | some st =>
      simp only [cstep, hcase, assign_group_never_saves, Option.getD_none]

theorem runSched_disk (reqs : List CReq) (now : Int) (acts : List CAct)
    (cfg : CConfig) : (runSched reqs now cfg acts).disk = cfg.disk := by
  induction acts generalizing cfg with
  | nil => rfl
  | cons a rest ih =>
    simp only [runSched, List.foldl_cons] at ih ⊢
    rw [ih (cstep reqs now cfg a), cstep_disk]

/-! ## Inversion lemma for a committed repetition assignment -/

theorem assign_repetition_saved_inv {p : String}
    {asg asg' : List (String × RepRec)} {files : List String} {now : Int}
    {r : RResp}
    (h : assign_repetition (some p) asg files now = (r, some asg')) :
    ∃ t, r = .rep t ∧ lookupA p asg = none ∧
      asg' = asg ++ [(p, { repetition := t, timestamp := now })] := by
  by_cases hp : p = ""
  · simp [assign_repetition, hp] at h
  · rw [assign_repetition] at h
    rw [if_neg hp] at h
    cases hl : lookupA p asg with
    | some rec => simp only [hl] at h; simp at h
    | none =>
      simp only [hl] at h
      cases hs : repStatus asg files now with
      | error e => simp only [hs] at h; simp at h
      | ok ca =>
        obtain ⟨comp, act⟩ := ca
        simp only [hs] at h
        simp only [Prod.mk.injEq, Option.some.injEq] at h
        obtain ⟨hr, hsave⟩ := h
        exact ⟨_, hr.symm, rfl, hsave.symm⟩

theorem sweepActive_eraseA (now : Int) (p : String)
    (active : List (String × GroupRec))
    (h : ∀ rec, (p, rec) ∈ active →
      ASSIGNMENT_TIMEOUT_SECONDS ≤ now - rec.timestamp) :
    sweepActive now (eraseA p active) = sweepActive now active := by
  unfold sweepActive eraseA
  rw [List.filter_filter]
  apply List.filter_congr
  intro kv hkv
  by_cases hk : kv.1 = p
  · have hstale : ASSIGNMENT_TIMEOUT_SECONDS ≤ now - kv.2.timestamp := by
      refine h kv.2 ?_
      rw [← hk]
      exact hkv
    have hdrop : ¬ (now - kv.2.timestamp < ASSIGNMENT_TIMEOUT_SECONDS) := by
      omega
    simp [hdrop]
  · simp [hk]

/-! ## Repetition-variant lemmas -/

theorem repStatusStep_stale (files : List String) (now : Int) (p : String)
    (rec : RepRec) (hcsv : csvExists p files = false)
    (hage : SESSION_TIMEOUT ≤ now - rec.timestamp)
    (acc : Except PyErr ((Nat → Nat) × (Nat → Nat))) :
    repStatusStep files now acc (p, rec) = acc := by
  cases acc with
  | error e => rfl
  | ok ca =>
    obtain ⟨comp, act⟩ := ca
    have hfresh : ¬ (now - rec.timestamp < SESSION_TIMEOUT) := by omega
    simp [repStatusStep, hcsv, hfresh]

theorem repStatus_skips_stale (l₁ l₂ : List (String × RepRec)) (p : String)
    (rec : RepRec) (files : List String) (now : Int)
    (hcsv : csvExists p files = false)
    (hage : SESSION_TIMEOUT ≤ now - rec.timestamp) :
    repStatus (l₁ ++ (p, rec) :: l₂) files now =
      repStatus (l₁ ++ l₂) files now := by
  unfold repStatus
  rw [List.foldl_append, List.foldl_append, List.foldl_cons,
    repStatusStep_stale files now p rec hcsv hage]

theorem repRange_sorted : repRange.Sorted (· ≤ ·) := by decide

theorem filter_head_least {l : List Nat} (hs : l.Sorted (· ≤ ·))
    {p : Nat → Bool} {x : Nat} {xs : List Nat} (h : l.filter p = x :: xs) :
    x ∈ l ∧ p x = true ∧ ∀ y ∈ l, p y = true → x ≤ y := by
  have hx : x ∈ l.filter p := by rw [h]; simp
  obtain ⟨hxl, hpx⟩ := List.mem_filter.mp hx
  refine ⟨hxl, hpx, ?_⟩
  intro y hy hpy
  have hyf : y ∈ l.filter p := List.mem_filter.mpr ⟨hy, hpy⟩
  rw [h] at hyf
  have hsf : (x :: xs).Sorted (· ≤ ·) := h ▸ hs.filter p
  rcases List.mem_cons.mp hyf with he | hm
  · omega
  · exact (List.sorted_cons.mp hsf).1 y hm

/-! ## Claim theorems -/

/-- C8: an allocation request with a missing or empty participant id is
rejected with the 400 response in both variants, and nothing is saved:
the persisted state after the request equals the state before it. -/
theorem c8_invalid_request_no_state_change :
    (∀ (st : GState) (now : Int) (rng : Nat),
      assign_group none st now rng = (.noId, none) ∧
      assign_group (some "") st now rng = (.noId, none)) ∧
    (∀ (asg : List (String × RepRec)) (files : List String) (now : Int),
      assign_repetition none asg files now = (.noId, none) ∧
      assign_repetition (some "") asg files now = (.noId, none)) := by
  refine ⟨fun st now rng => ⟨rfl, ?_⟩, fun asg files now => ⟨rfl, ?_⟩⟩
  · simp [assign_group]
  · simp [assign_repetition]

/-- C10: completion detection by filename is unsound.  Participant
ids `"A"` and `"A_B"` are distinct and one is a prefix of the other; the
CSV file written by `save_data` for `"A_B"` makes `csvExists` accept
participant `"A"` as well, so the repetition scan counts `"A"`'s
repetition 1 as completed even though `"A"` never submitted any file. -/
theorem c10_filename_collision_unsound :
    "A" ≠ "A_B" ∧
    pyStartsWith "A_B" "A" = true ∧
    (save_data (some "A_B") "trial" 100 defaultGState []).2.2 =
      ["A_B_100.csv"] ∧
    csvExists "A" ["A_B_100.csv"] = true ∧
    csvExists "A" [] = false ∧
    repCompletedAt [("A", ⟨1, 0⟩), ("A_B", ⟨2, 0⟩)] ["A_B_100.csv"] 0 1 = 1 ∧
    repCompletedAt [("A", ⟨1, 0⟩), ("A_B", ⟨2, 0⟩)] [] 0 1 = 0 := by
  decide

/-- C2: the completion-accounting block of `save_data` is dead code.  At a
state where participant `"p"` is active with condition 0, a successful
submission leaves the assignment state exactly as it was — `"p"` stays in
the active map and no completed count moves — whereas the block at lines
57-76, had it been reachable, would have removed `"p"` and incremented
`completed['0']` to 1, which is what the claim (and the spec) describe. -/
theorem c2_completion_block_unreachable :
    save_data (some "p") "trial,response" 100
        ⟨[("p", ⟨0, 0⟩)], [("0", 0), ("1", 0), ("2", 0)]⟩ [] =
      (.success "p_100.csv",
       ⟨[("p", ⟨0, 0⟩)], [("0", 0), ("1", 0), ("2", 0)]⟩, ["p_100.csv"]) ∧
    save_data_completion_block "p"
        ⟨[("p", ⟨0, 0⟩)], [("0", 0), ("1", 0), ("2", 0)]⟩ =
      ⟨[], [("0", 1), ("1", 0), ("2", 0)]⟩ := by
  exact ⟨by decide, by decide⟩

/-- C7: `load_assignments` returns the default state for every backing —
absent, unparsable, and even parseable content, malformed or not — because
`json.load` raises `NameError` (`json` is unbound) and the bare `except:`
swallows it.  But the next engine operation on that default state crashes:
the allocation's `save_assignments` truncates the backing file and raises
an uncaught `NameError`, answering HTTP 500 — against the claim that no
subsequent engine operation on such a state crashes. -/
theorem c7_load_defaults_allocation_crashes :
    load_assignments Backing.absent = defaultGState ∧
    load_assignments Backing.unparsable = defaultGState ∧
    load_assignments (Backing.parsed ⟨[], [("7", 1)]⟩) = defaultGState ∧
    load_assignments
        (Backing.parsed ⟨[("q", ⟨0, 0⟩)], [("0", 3), ("1", 0), ("2", 0)]⟩) =
      defaultGState ∧
    assign_group (some "p") (load_assignments Backing.absent) 0 0 =
      (.failure .nameError, none) := by
  exact ⟨rfl, rfl, rfl, rfl, by decide⟩

/-- C1 counterexample: in the group variant no call to allocate ever
returns a condition.  The fresh path raises `NameError` inside
`save_assignments` and answers HTTP 500, and since nothing is ever
persisted the replay branch cannot trigger: calling assign twice with the
same participant id yields two 500 responses, not the same condition
twice.  (The second request loads the default state again — the failed
save left the backing file truncated, hence unparsable.) -/
theorem c1_group_assign_returns_no_condition :
    assign_group (some "p") (load_assignments Backing.absent) 0 0 =
      (.failure .nameError, none) ∧
    assign_group (some "p") (load_assignments Backing.unparsable) 100 5 =
      (.failure .nameError, none) := by
  exact ⟨by decide, by decide⟩

/-- C1 amended: in the repetition variant idempotent replay holds — a
participant with a record gets the stored repetition back with nothing
rewritten, and a participant whose first request committed gets the same
repetition on any later request.  In the group variant the replay branch
would return the stored condition without saving (first conjunct), but no
record is ever persisted: every allocation request on a loaded state
answers 500 with `NameError` (last conjunct), so a group participant is
never handed a condition at all, let alone the same one twice. -/
theorem c1_idempotent_replay :
    (∀ (st : GState) (now : Int) (rng : Nat) (p : String) (rec : GroupRec),
      p ≠ "" → lookupA p (sweepActive now st.active) = some rec →
      assign_group (some p) st now rng = (.ok rec.group false, none)) ∧
    (∀ (asg : List (String × RepRec)) (files : List String) (now : Int)
        (p : String) (rec : RepRec),
      p ≠ "" → lookupA p asg = some rec →
      assign_repetition (some p) asg files now = (.rep rec.repetition, none)) ∧
    (∀ (asg asg' : List (String × RepRec)) (files : List String)
        (now now' : Int) (p : String) (t : Nat),
      assign_repetition (some p) asg files now = (.rep t, some asg') →
      assign_repetition (some p) asg' files now' = (.rep t, none)) ∧
    (∀ (b : Backing) (p : String) (now : Int) (rng : Nat), p ≠ "" →
      assign_group (some p) (load_assignments b) now rng =
        (.failure .nameError, none)) := by
  refine ⟨fun st now rng p rec hp h => assign_group_replay hp h,
    fun asg files now p rec hp h => by simp [assign_repetition, hp, h],
    ?_, fun b p now rng hp => group_allocation_always_fails b p now rng hp⟩
  intro asg asg' files now now' p t h
  obtain ⟨t', hr, hlook, hsave⟩ := assign_repetition_saved_inv h
  injection hr with ht
  rw [← ht] at hsave
  have hp : p ≠ "" := by
    intro he
    rw [he] at h
    simp [assign_repetition] at h
  have hl : lookupA p asg' = some { repetition := t, timestamp := now } := by
    rw [hsave]
    exact lookupA_append_self p _ asg hlook
  simp [assign_repetition, hp, hl]

/-- C1 witness: the amended claim at concrete inputs — a committed
repetition assignment replays unchanged, and a group allocation fails. -/
theorem c1_idempotent_replay_witness :
    assign_repetition (some "w") [("w", ⟨1, 0⟩)] [] 50 = (.rep 1, none) ∧
    assign_group (some "p") (load_assignments Backing.absent) 7 3 =
      (.failure .nameError, none) :=
  ⟨c1_idempotent_replay.2.2.1 [] [("w", ⟨1, 0⟩)] [] 0 50 "w" 1 (by decide),
   c1_idempotent_replay.2.2.2 Backing.absent "p" 7 3 (by decide)⟩

/-- C5 counterexample: in the repetition variant a stale record is not
dropped from the store when an allocation request is handled.  Participant
`"old"` was assigned at time 0 and the request is handled at 7300, past
the 7200-second timeout, yet the state persisted by the request still
contains `"old"`'s record. -/
theorem c5_stale_record_not_dropped :
    (assign_repetition (some "new") [("old", ⟨3, 0⟩)] [] 7300).2 =
      some [("old", ⟨3, 0⟩), ("new", ⟨1, 7300⟩)] ∧
    lookupA "old" [("old", (⟨3, 0⟩ : RepRec)), ("new", ⟨1, 7300⟩)] =
      some (⟨3, 0⟩ : RepRec) ∧
    SESSION_TIMEOUT ≤ (7300 : Int) - 0 := by
  refine ⟨by decide, by decide, by decide⟩

/-- C5 amended: the group-variant sweep drops every record aged at least
the timeout (no record surviving the sweep is stale) and the allocation
request never persists anything at all — in particular no completed count
is ever incremented.  In the repetition variant a stale record without a
CSV stays in the store but contributes to no load computation, and a new
participant allocated after the timeout may receive the stale record's
condition again: with `"old"` holding repetition 1 since time 0,
participant `"new"` at time 7300 receives repetition 1 while `"old"`'s
record remains in the saved state. -/
theorem c5_reclaim :
    (∀ (st : GState) (now : Int) (kv : String × GroupRec),
      kv ∈ sweepActive now st.active →
      now - kv.2.timestamp < ASSIGNMENT_TIMEOUT_SECONDS) ∧
    (∀ (pid? : Option String) (st : GState) (now : Int) (rng : Nat),
      (assign_group pid? st now rng).2 = none) ∧
    (∀ (l₁ l₂ : List (String × RepRec)) (p : String) (rec : RepRec)
        (files : List String) (now : Int),
      csvExists p files = false →
      SESSION_TIMEOUT ≤ now - rec.timestamp →
      repStatus (l₁ ++ (p, rec) :: l₂) files now =
        repStatus (l₁ ++ l₂) files now) ∧
    assign_repetition (some "new") [("old", ⟨1, 0⟩)] [] 7300 =
      (.rep 1, some [("old", ⟨1, 0⟩), ("new", ⟨1, 7300⟩)]) := by
  exact ⟨fun st now kv h => mem_sweepActive_fresh h,
    assign_group_never_saves, repStatus_skips_stale, by decide⟩

/-- C5 witness: the amended claim at concrete inputs — a stale record is
excluded from the repetition load computation. -/
theorem c5_reclaim_witness :
    repStatus [("x", ⟨2, 0⟩)] [] 7200 = repStatus [] [] 7200 := by
  have h := c5_reclaim.2.2.1 [] [] "x" ⟨2, 0⟩ [] 7200 (by decide) (by decide)
  simpa using h

/-- C6 counterexample: in the repetition variant, a participant whose
record is stale (age 7201 at least the 7200-second timeout) is replayed
their old repetition 5; a participant never assigned would instead have
received repetition 1 — the stale participant is not treated as new. -/
theorem c6_stale_replay_counterexample :
    assign_repetition (some "p") [("p", ⟨5, 0⟩)] [] 7201 = (.rep 5, none) ∧
    assign_repetition (some "p") [] [] 7201 =
      (.rep 1, some [("p", ⟨1, 7201⟩)]) ∧
    (RResp.rep 5 : RResp) ≠ .rep 1 := by
  refine ⟨by decide, by decide, by decide⟩

/-- C6 amended: in the group variant, a participant all of whose records
are stale is handled exactly as if they had never been assigned (the
sweep runs before the replay check); in the repetition variant the replay
check runs first and the old repetition is returned unchanged no matter
how stale the record is. -/
theorem c6_timeout_treated_as_new :
    (∀ (st : GState) (now : Int) (rng : Nat) (p : String), p ≠ "" →
      (∀ rec, (p, rec) ∈ st.active →
        ASSIGNMENT_TIMEOUT_SECONDS ≤ now - rec.timestamp) →
      assign_group (some p) st now rng =
        assign_group (some p) ⟨eraseA p st.active, st.completed⟩ now rng) ∧
    (∀ (asg : List (String × RepRec)) (files : List String) (now : Int)
        (p : String) (rec : RepRec), p ≠ "" → lookupA p asg = some rec →
      SESSION_TIMEOUT ≤ now - rec.timestamp →
      assign_repetition (some p) asg files now =
        (.rep rec.repetition, none)) := by
  constructor
  · intro st now rng p hp hstale
    have hs := sweepActive_eraseA now p st.active hstale
    simp only [assign_group]
    rw [if_neg hp, if_neg hp]
    rw [hs]
  · intro asg files now p rec hp h _
    simp [assign_repetition, hp, h]

/-- C6 witness: the amended claim at a concrete input — a stale group
record is handled as if absent. -/
theorem c6_timeout_treated_as_new_witness :
    assign_group (some "p")
        ⟨[("p", ⟨2, 0⟩)], [("0", 0), ("1", 0), ("2", 0)]⟩ 1800 4 =
      assign_group (some "p")
        ⟨eraseA "p" [("p", ⟨2, 0⟩)], [("0", 0), ("1", 0), ("2", 0)]⟩ 1800 4 :=
  c6_timeout_treated_as_new.1
    ⟨[("p", ⟨2, 0⟩)], [("0", 0), ("1", 0), ("2", 0)]⟩ 1800 4 "p"
    (by decide)
    (fun rec hr => by
      simp at hr
      subst hr
      decide)

/-- C9 counterexample: the claimed guarantee fails outright.  No lock is
acquired (`lock_file` is computed at line 127 and never used) — and more
basically no assignment is ever persisted: under the all-load-then-save
interleaving of `lostUpdateSched`, every one of the four requests with
distinct new participant ids answers 500 with `NameError` and the store
still holds zero AssignmentRecords, not four. -/
theorem c9_lost_update_counterexample :
    (lostUpdateReqs.map CReq.pid).Nodup ∧
    lostUpdateReqs.length = 4 ∧
    lostUpdateFinal.outs = List.replicate 4 (some (.failure .nameError)) ∧
    lostUpdateFinal.disk = defaultGState ∧
    lostUpdateFinal.disk.active.length = 0 ∧
    ¬ lostUpdateFinal.disk.active.length = 4 := by
  refine ⟨by decide, rfl, by decide, by decide, by decide, by decide⟩

/-- C9 amended: there is no lock, and there is nothing for a lock to
protect — `save_assignments` raises `NameError` before writing any JSON,
so no `assign_group` request ever persists a state.  The shared store is
left exactly as it was under every interleaving of loads and saves, and a
serial run of any request list leaves it unchanged too: M concurrent
assigns with distinct new ids yield zero persisted records, not M. -/
theorem c9_no_allocation_ever_persists :
    (∀ (pid? : Option String) (st : GState) (now : Int) (rng : Nat),
      (assign_group pid? st now rng).2 = none) ∧
    (∀ (reqs : List CReq) (now : Int) (acts : List CAct) (cfg : CConfig),
      (runSched reqs now cfg acts).disk = cfg.disk) ∧
    (∀ (now : Int) (reqs : List (String × Nat)) (st : GState),
      runSeq now st reqs = st) :=
  ⟨assign_group_never_saves, runSched_disk,
   fun now reqs st => runSeq_id now reqs st⟩

/-- C4: the selection rule of lines 145-164 is exactly the claimed one —
the minimum-load group, with ties among the minima broken by the injected
randomness index (first conjunct, over arbitrary completed counts with an
empty active set; then concrete instances: one with an active record
included in the load, three showing the rng-indexed tie-break over the
tied candidates `[0, 1, 2]`) — but the allocation never commits: the
chosen group is discarded when `save_assignments` raises `NameError`, the
request answers 500, and no sequence of allocations can accumulate any
load at all, so the claimed balanced outcome never materializes. -/
theorem c4_min_load_selected_never_committed :
    (∀ (a b c rng : Nat), ∃ g,
      chosenGroup [("0", a), ("1", b), ("2", c)] [] rng = .ok g ∧ g < 3 ∧
      Counts.get ⟨a, b, c⟩ g = Counts.minLoad ⟨a, b, c⟩) ∧
    chosenGroup [("0", 0), ("1", 0), ("2", 0)] [("q", ⟨0, 0⟩)] 0 = .ok 1 ∧
    chosenGroup [("0", 0), ("1", 0), ("2", 0)] [] 0 = .ok 0 ∧
    chosenGroup [("0", 0), ("1", 0), ("2", 0)] [] 1 = .ok 1 ∧
    chosenGroup [("0", 0), ("1", 0), ("2", 0)] [] 2 = .ok 2 ∧
    assign_group (some "p") (load_assignments Backing.absent) 0 0 =
      (.failure .nameError, none) := by
  refine ⟨?_, by rfl, by rfl, by rfl, by rfl, by decide⟩
  intro a b c rng
  refine ⟨choice rng (Counts.candidates ⟨a, b, c⟩), ?_, ?_⟩
  · simp only [chosenGroup, addCompleted_default, addActive]
  · exact of_mem_candidates (choice_mem rng (candidates_ne_nil ⟨a, b, c⟩))

/-- C3: zero-first policy of the repetition variant.  Whenever some
repetition in `1..27` has both tallies zero, a new participant receives
the lowest-indexed such repetition; consequently 27 sequential new
participants (the distinct ids of `seqPids`) starting from the empty
state receive the repetitions `[1, 2, ..., 27]` — each exactly once, in
ascending index order. -/
theorem c3_zero_first :
    (∀ (asg : List (String × RepRec)) (files : List String) (now : Int)
        (p : String) (comp act : Nat → Nat),
      p ≠ "" → lookupA p asg = none →
      repStatus asg files now = .ok (comp, act) →
      (∃ r ∈ repRange, comp r = 0 ∧ act r = 0) →
      ∃ t, t ∈ repRange ∧ comp t = 0 ∧ act t = 0 ∧
        (∀ r ∈ repRange, comp r = 0 ∧ act r = 0 → t ≤ r) ∧
        assign_repetition (some p) asg files now =
          (.rep t, some (asg ++ [(p, { repetition := t, timestamp := now })]))) ∧
    seqPids.Nodup ∧
    (runSeqRep 0 [] [] seqPids).1 = (List.range TOTAL_REPS).map (· + 1) := by
  refine ⟨?_, by decide, by decide⟩
  intro asg files now p comp act hp hlook hstat hex
  cases hz : repRange.filter (fun r => comp r == 0 && act r == 0) with
  | nil =>
    obtain ⟨r, hr, hzr⟩ := hex
    have hmem : r ∈ repRange.filter (fun r => comp r == 0 && act r == 0) :=
      List.mem_filter.mpr ⟨hr, by simp [hzr.1, hzr.2]⟩
    rw [hz] at hmem
    simp at hmem
  | cons t ts =>
    obtain ⟨htmem, htq, hleast⟩ := filter_head_least repRange_sorted hz
    have htz : comp t = 0 ∧ act t = 0 := by simpa using htq
    refine ⟨t, htmem, htz.1, htz.2, ?_, ?_⟩
    · intro r hr hzr
      exact hleast r hr (by simp [hzr.1, hzr.2])
    · simp only [assign_repetition]
      rw [if_neg hp]
      simp only [hlook, hstat, hz]

/-- C3 witness: on a state where repetition 1 is taken by an active
participant and everything else is free, a new participant receives
repetition 2, the least zero-load slot. -/
theorem c3_zero_first_witness :
    ∃ t, t ∈ repRange ∧
      repCompletedAt [("q", ⟨1, 0⟩)] [] 0 t = 0 ∧
      repActiveAt [("q", ⟨1, 0⟩)] [] 0 t = 0 ∧
      (∀ r ∈ repRange,
        repCompletedAt [("q", ⟨1, 0⟩)] [] 0 r = 0 ∧
          repActiveAt [("q", ⟨1, 0⟩)] [] 0 r = 0 → t ≤ r) ∧
      assign_repetition (some "p") [("q", ⟨1, 0⟩)] [] 0 =
        (.rep t, some ([("q", ⟨1, 0⟩)] ++
          [("p", { repetition := t, timestamp := 0 })])) :=
  c3_zero_first.1 [("q", ⟨1, 0⟩)] [] 0 "p"
    (repCompletedAt [("q", ⟨1, 0⟩)] [] 0) (repActiveAt [("q", ⟨1, 0⟩)] [] 0)
    (by decide) (by decide) (by rfl) ⟨2, by decide, by decide, by decide⟩

end Server
